import Mathlib

/-!
Shallow embedding of the proxy-relay repository (Go) for checking its
natural-language specification.

Modelled source files:
* `config/config.go` — `config.New`: reverse-mapping string parsing and
  proxy selection (the TOML file decode itself is an external collaborator;
  its outcome is an input to the model).
* `proxy/socks.go` — `SOCKS.Close` and the accept/serve structure relevant
  to the close contract.
* `proxy/http.go` — `HTTP.Close` and the graceful-drain controller `run`
  (the connection-tracking select loop).
* the unnamed file holding `connectSOCKS` — the tunnel relay engine.
* `main.go` — `relay.reload`, the reload coordinator.

External effects (network dials, socket writes, the two copy directions)
are represented by an explicit world/outcome record; the functions below
mirror the Go control flow over those outcomes and additionally record the
externally observable events (writes to the local connection, listener
close/open order) as traces.
-/

namespace ProxyRelay

/-- Go `error` values as they occur in this program: either a plain message
(`errors.New` / `fmt.Errorf`) or the combined two-direction relay failure
produced by `fmt.Errorf("two errors:\n%v\n%v\n", e1, e2)`. -/
inductive GoErr where
  | msg (s : String)
  | two (e1 e2 : GoErr)
deriving DecidableEq, Repr

/-- Rendering of an error, used where the Go code nests an error into a new
`fmt.Errorf` message. -/
def GoErr.render : GoErr → String
  | .msg s => s
  | .two e1 e2 => "two errors:\n" ++ e1.render ++ "\n" ++ e2.render ++ "\n"

/-! ## config/config.go -/

/-- `config.Proxy`: one upstream proxy configuration. -/
structure Proxy where
  name : String
  host : String
  httpPort : Int
  socksPort : Int
  username : String
  password : String
deriving DecidableEq, Repr

/-- The anonymous struct filled by `toml.DecodeFile` inside `config.New`.
The TOML decode is an external collaborator; this is its successful output.
The `proxies` table is a Go map, modelled as an association list with
unique keys (TOML table keys are unique). -/
structure RawConfig where
  useProxy : String
  reverse : List String
  directHosts : List String
  proxies : List (String × Proxy)
deriving DecidableEq, Repr

/-- `config.Config`: the processed configuration. `reverseMap` models the
Go `map[int]string` as an association list whose keys are unique; Go map
iteration order is unspecified, the list order is insertion order. -/
structure Config where
  proxy : Proxy
  reverseMap : List (Int × String)
  directHosts : List String
deriving DecidableEq, Repr

/-- First occurrence of the separator `->` in a character list, splitting
the list around it; `none` when the separator does not occur. This is the
heart of Go `strings.SplitN(s, "->", 2)`. -/
def splitArrow : List Char → Option (List Char × List Char)
  | '-' :: '>' :: rest => some ([], rest)
  | c :: rest => (splitArrow rest).map (fun p => (c :: p.1, p.2))
  | [] => none

/-- Go `strings.SplitN(s, "->", 2)`: a one-element list when the separator
is absent, otherwise the part before the first separator and the rest. -/
def goSplitN2Arrow (s : String) : List String :=
  match splitArrow s.data with
  | none => [s]
  | some (a, b) => [String.mk a, String.mk b]

/-- Decimal value of a digit list (used only when every character is a
digit). -/
def digitsToNat (cs : List Char) : Nat :=
  cs.foldl (fun a c => a * 10 + (c.toNat - '0'.toNat)) 0

/-- The digit-run check shared by the sign branches of `strconv.Atoi`. -/
def goAtoiDigits (cs : List Char) : Option Nat :=
  if !cs.isEmpty && cs.all Char.isDigit then some (digitsToNat cs) else none

/-- Go `strconv.Atoi`: optional sign, then a non-empty run of decimal
digits; anything else is a syntax error. The 64-bit range error of the Go
implementation is not modelled — every port literal in scope is tiny. -/
def goAtoi (s : String) : Except GoErr Int :=
  match s.data with
  | '+' :: rest =>
    match goAtoiDigits rest with
    | some n => .ok (n : Int)
    | none => .error (.msg ("strconv.Atoi: parsing " ++ s ++ ": invalid syntax"))
  | '-' :: rest =>
    match goAtoiDigits rest with
    | some n => .ok (-(n : Int))
    | none => .error (.msg ("strconv.Atoi: parsing " ++ s ++ ": invalid syntax"))
  | cs =>
    match goAtoiDigits cs with
    | some n => .ok (n : Int)
    | none => .error (.msg ("strconv.Atoi: parsing " ++ s ++ ": invalid syntax"))

/-- Go map assignment `m[k] = v` on the association-list model: replace in
place when the key is present, append otherwise. -/
def mapInsert : List (Int × String) → Int → String → List (Int × String)
  | [], k, v => [(k, v)]
  | (k0, v0) :: rest, k, v =>
    if k0 = k then (k, v) :: rest else (k0, v0) :: mapInsert rest k v

/-- Go map read `m[k]` on the association-list model. -/
def mapLookup : List (Int × String) → Int → Option String
  | [], _ => none
  | (k0, v0) :: rest, k => if k0 = k then some v0 else mapLookup rest k

/-- Go map read with ok-flag `cfg.Proxies[cfg.UseProxy]`. -/
def lookupProxy : List (String × Proxy) → String → Option Proxy
  | [], _ => none
  | (n, p) :: rest, key => if n = key then some p else lookupProxy rest key

/-- The reverse-mapping loop of `config.New` (config.go lines 44-56):
split each entry on `->`, require exactly two parts, parse the port with
`strconv.Atoi`, and assign into the map (so a repeated port is silently
overwritten by the later entry). -/
def parseReverseLoop (acc : List (Int × String)) :
    List String → Except GoErr (List (Int × String))
  | [] => .ok acc
  | mapping :: rest =>
    match goSplitN2Arrow mapping with
    | [k, v] =>
      match goAtoi k with
      | .ok p => parseReverseLoop (mapInsert acc p v) rest
      | .error e => .error (.msg ("invalid portnumber: " ++ e.render))
    | _ => .error (.msg ("could not parse mapping setting: " ++ mapping))

/-- Go set insertion `m[x] = struct\x7b\x7d\x7b\x7d` for the
`DirectHosts` string set, modelled as a duplicate-free list. -/
def setInsertStr (s : List String) (x : String) : List String :=
  if x ∈ s then s else s ++ [x]

/-- The processing phase of `config.New` after a successful TOML decode:
parse the reverse mappings, resolve the `use_proxy` key (stamping the name
into the chosen proxy), and collect the direct-host set. -/
def configProcess (raw : RawConfig) : Except GoErr Config :=
  match parseReverseLoop [] raw.reverse with
  | .error e => .error e
  | .ok rm =>
    match lookupProxy raw.proxies raw.useProxy with
    | none => .error (.msg ("proxy setting not found: " ++ raw.useProxy))
    | some px =>
      .ok { proxy := { px with name := raw.useProxy },
            reverseMap := rm,
            directHosts := raw.directHosts.foldl setInsertStr [] }

/-- `config.New` = external TOML decode followed by `configProcess`. -/
def configNewModel (decodeResult : Except GoErr RawConfig) : Except GoErr Config :=
  match decodeResult with
  | .error e => .error e
  | .ok raw => configProcess raw

/-- Successful-load view of `configProcess`, convenient for statements. -/
def configOk (raw : RawConfig) : Option Config :=
  match configProcess raw with
  | .ok c => some c
  | .error _ => none

/-- Pure view of one reverse-mapping entry: `some (port, dest)` exactly
when the `config.New` loop accepts the entry. -/
def parseEntry (s : String) : Option (Int × String) :=
  match goSplitN2Arrow s with
  | [k, v] =>
    match goAtoi k with
    | .ok p => some (p, v)
    | .error _ => none
  | _ => none

/-- An entry the loader rejects: no `->` separator, or a port prefix that
is not a valid integer. -/
def entryMalformed (s : String) : Bool := (parseEntry s).isNone

/-- Folding the parsed entries through Go map assignment, starting from an
existing map. -/
def buildMap (acc : List (Int × String)) (entries : List (Int × String)) :
    List (Int × String) :=
  entries.foldl (fun m pv => mapInsert m pv.1 pv.2) acc

/-- Destination of the entry with port `p` appearing last in the list.
This definition follows the words of the specification claim about
duplicate ports ("the destination is the one from the entry appearing last
in the list") and is compared against the map the source builds. -/
def specLastDest : List (Int × String) → Int → Option String
  | [], _ => none
  | (k, v) :: rest, p =>
    match specLastDest rest p with
    | some d => some d
    | none => if k = p then some v else none

/-- Number of entries in the built map carrying port `p`. -/
def portCount (m : List (Int × String)) (p : Int) : Nat :=
  (m.filter (fun pv => pv.1 == p)).length

/-- Number of parsed reverse entries (in the raw string list) whose listen
port is `p`; follows the wording of the duplicate-port claim. -/
def portOccurrences (l : List String) (p : Int) : Nat :=
  ((l.filterMap parseEntry).filter (fun pv => pv.1 == p)).length

/-! ## connectSOCKS (tunnel relay engine) -/

/-- A write observed on the local connection `c` during one `connectSOCKS`
call. The only writers to `c` inside the call are the single
`c.Write(intro)` and the upstream-to-local copy `io.Copy(c, conn)`. -/
inductive LocalWrite where
  | introWrite (bs : List Nat)
  | relayed (bs : List Nat)
deriving DecidableEq, Repr

/-- Whether an observed local write is the intro write. -/
def LocalWrite.isIntro : LocalWrite → Bool
  | .introWrite _ => true
  | .relayed _ => false

/-- Outcomes of the external effects inside one `connectSOCKS` call:
the `proxy.SOCKS5` constructor, the dial through the upstream, the intro
write on the local connection, the chunks the upstream-to-local copy
delivers, and the final errors of the two copy directions (`e1` is the
upstream-to-local direction `io.Copy(c, conn)`, `e2` the local-to-upstream
direction `io.Copy(conn, c)`). -/
structure TunnelWorld where
  socks5Err : Option GoErr
  dialErr : Option GoErr
  introWriteErr : Option GoErr
  upstreamChunks : List (List Nat)
  copyUpstreamToLocalErr : Option GoErr
  copyLocalToUpstreamErr : Option GoErr
deriving DecidableEq, Repr

/-- Result of one `connectSOCKS` call: the named return values
`(connected, err)` plus the ordered trace of writes on the local
connection. -/
structure TunnelResult where
  connected : Bool
  err : Option GoErr
  localWrites : List LocalWrite
deriving DecidableEq, Repr

/-- `connectSOCKS` (unnamed source file, lines 18-72): build the SOCKS5
dialer, dial the destination, write the intro bytes (only when `intro` is
non-nil) before starting the two copy directions, set `connected` after
the intro write, run both copies, and aggregate the two direction errors.
`intro = none` models Go `nil`. Local writes are listed in the order they
happen on the connection: the intro write strictly precedes every chunk of
the upstream-to-local copy because the copy goroutines start after it. -/
def connectSOCKS (w : TunnelWorld) (intro : Option (List Nat)) : TunnelResult :=
  match w.socks5Err with
  | some e => { connected := false, err := some e, localWrites := [] }
  | none =>
  match w.dialErr with
  | some e => { connected := false, err := some e, localWrites := [] }
  | none =>
  match intro, w.introWriteErr with
  | some bs, some e =>
    { connected := false, err := some e, localWrites := [.introWrite bs] }
  | _, _ =>
    { connected := true,
      err :=
        match w.copyUpstreamToLocalErr, w.copyLocalToUpstreamErr with
        | some e1, some e2 => some (.two e1 e2)
        | some e1, none => some e1
        | none, some e2 => some e2
        | none, none => none,
      localWrites :=
        (match intro with
         | none => []
         | some bs => [LocalWrite.introWrite bs]) ++
        w.upstreamChunks.map LocalWrite.relayed }

/-! ## proxy/http.go: the graceful-drain controller `run` -/

/-- Messages consumed by the connection-tracking goroutine of `run`
(http.go lines 112-137): `add`/`remove` from the `ConnState` callback,
`stop` when `Serve` has returned and draining begins, `kill` when the
1-second grace period expires. Connections are identified by a number. -/
inductive MgrEvent where
  | add (c : Nat)
  | remove (c : Nat)
  | stop
  | kill
deriving DecidableEq, Repr

/-- State of the tracking goroutine when its message stream ends:
still looping, finished by sending `done` (graceful drain; carries the
tracked set at that moment), or finished by `kill` (carries the set of
connections it force-closed). -/
inductive MgrOutcome where
  | running (conns : List Nat) (stopped : Bool)
  | finishedGraceful (conns : List Nat)
  | finishedKilled (closed : List Nat)
deriving DecidableEq, Repr

/-- Go set insertion `connections[conn] = struct\x7b\x7d\x7b\x7d`. -/
def setInsertNat (s : List Nat) (c : Nat) : List Nat :=
  if c ∈ s then s else s ++ [c]

/-- Go `delete(connections, conn)`. -/
def setRemoveNat (s : List Nat) (c : Nat) : List Nat :=
  s.filter (fun x => x ≠ c)

/-- The select loop of the tracking goroutine, processing its messages in
arrival order. `stopped` models `done != nil` (a drain was requested):
after `stop`, the first `remove` that empties the set answers `done` and
the goroutine returns; `stop` on an already-empty set answers immediately;
`kill` closes every still-tracked connection and returns. -/
def mgrRun : List Nat → Bool → List MgrEvent → MgrOutcome
  | conns, stopped, [] => .running conns stopped
  | conns, stopped, .add c :: evs => mgrRun (setInsertNat conns c) stopped evs
  | conns, stopped, .remove c :: evs =>
    let conns2 := setRemoveNat conns c
    if stopped && conns2.isEmpty then .finishedGraceful conns2
    else mgrRun conns2 stopped evs
  | conns, _, .stop :: evs =>
    if conns.isEmpty then .finishedGraceful conns else mgrRun conns true evs
  | conns, _, .kill :: _ => .finishedKilled conns

/-! ## proxy/socks.go: SOCKS.Close, and proxy/http.go: HTTP.Close -/

/-- Observable state of one SOCKS reverse listener: the `closed` flag, the
listening socket, and the identities of connections accepted earlier whose
relay is still in flight (each served by its own goroutine). -/
structure SOCKSState where
  closed : Bool
  listenerOpen : Bool
  inflight : List Nat
deriving DecidableEq, Repr

/-- The error a second `net.Listener.Close` observes. -/
def closedSocketErr : GoErr := .msg "use of closed network connection"

/-- `SOCKS.Close` (socks.go lines 89-92): set the flag, close the
listening socket, and return its error; nothing touches the in-flight
connections and nothing waits for them. -/
def socksClose (s : SOCKSState) : Option GoErr × SOCKSState :=
  (if s.listenerOpen then none else some closedSocketErr,
   { closed := true, listenerOpen := false, inflight := s.inflight })

/-- Observable state of one HTTP listener for the close handshake:
whether the listening socket is open and whether the `run` drain
coordinator is still able to answer on the `sig` channel (it answers
exactly once, in its final `c <- <-ended`). -/
structure HTTPCloseState where
  listenerOpen : Bool
  runActive : Bool
deriving DecidableEq, Repr

/-- `HTTP.Close` (http.go lines 37-43): close the listener, then perform
the send/receive handshake on the unbuffered `sig` channel with `run`.
The result is `some (listener error, new state)` when the handshake can
complete; `none` models the call blocking forever because `run` has
already returned and nobody receives on `sig` again. -/
def httpClose (s : HTTPCloseState) : Option (Option GoErr × HTTPCloseState) :=
  if s.runActive then
    some (if s.listenerOpen then none else some closedSocketErr,
          { listenerOpen := false, runActive := false })
  else none

/-! ## main.go: relay.reload -/

/-- Mode of one listener created by `reload`: an HTTP proxy frontend or a
SOCKS reverse frontend with its fixed destination. -/
inductive LMode where
  | httpProxy
  | socksReverse (dest : String)
deriving DecidableEq, Repr

/-- One listener owned by the relay, with the upstream configuration it
captured at creation time and whether its socket is currently open. -/
structure Listener where
  port : Int
  mode : LMode
  upstream : Proxy
  isOpen : Bool
deriving DecidableEq, Repr

/-- Externally observable events of one `reload` run, in order:
closing a previous-generation listener, opening a new HTTP listener,
opening a new SOCKS reverse listener. -/
inductive ReloadEvent where
  | closePrev (port : Int)
  | openHTTP (port : Int)
  | openSOCKS (port : Int) (dest : String)
deriving DecidableEq, Repr

/-- Whether a reload event closes a previous-generation listener. -/
def ReloadEvent.isClose : ReloadEvent → Bool
  | .closePrev _ => true
  | _ => false

/-- True when some close event occurs strictly before some open event in
the trace. -/
def closeBeforeOpen : List ReloadEvent → Bool
  | [] => false
  | e :: rest =>
    (e.isClose && rest.any (fun x => !x.isClose)) || closeBeforeOpen rest

/-- Inputs of one `reload` attempt: the outcome of the TOML decode, which
ports fail to bind, and the `-proxy_port` / `-ports` flags. -/
structure ReloadEnv where
  decodeResult : Except GoErr RawConfig
  bindFails : Int → Bool
  basePort : Int
  numPorts : Nat

/-- Event emitted by a successful listen of the given mode. -/
def openEvent (p : Int) : LMode → ReloadEvent
  | .httpProxy => .openHTTP p
  | .socksReverse d => .openSOCKS p d

/-- The two listener-construction loops of `reload` (main.go lines
137-162), flattened over the planned (port, mode) list: each iteration
starts `ListenAndServe` and waits on `listenErr`; on a bind failure
`reload` returns at once (listeners already opened in this attempt are
neither closed nor published), otherwise the listener joins the new set. -/
def openLoop (bindFails : Int → Bool) (px : Proxy) :
    List (Int × LMode) → List ReloadEvent × List Listener × Option GoErr
  | [] => ([], [], none)
  | (p, m) :: rest =>
    if bindFails p then
      ([], [], some (.msg ("could not listen: " ++ toString p)))
    else
      let r := openLoop bindFails px rest
      (openEvent p m :: r.1,
       { port := p, mode := m, upstream := px, isOpen := true } :: r.2.1,
       r.2.2)

/-- The HTTP proxy ports `[basePort, basePort + numPorts)`. -/
def httpPorts (env : ReloadEnv) : List Int :=
  (List.range env.numPorts).map (fun k => env.basePort + (k : Int))

/-- Result of one `reload` attempt: the published listener slice
`rl.running`, the config reference `rl.cfg` (Go `nil` is `none` — on a
config load error `config.New` returns nil and the assignment overwrites
the old value), listeners opened during a failed attempt that are neither
closed nor published, the observable event trace, and the returned error. -/
structure ReloadOutcome where
  running : List Listener
  cfg : Option Config
  orphaned : List Listener
  trace : List ReloadEvent
  err : Option GoErr
deriving Repr

/-- `rl.Close()`: close every listener of the given slice. -/
def closeAll (ls : List Listener) : List Listener :=
  ls.map (fun l => { l with isOpen := false })

/-- `relay.reload` (main.go lines 123-170): load the config (returning at
once on failure, listeners untouched), then close every currently running
listener, then open the new set — the HTTP proxy range first, then one
SOCKS listener per reverse mapping. A bind failure aborts with an error:
`rl.running` still references the (now closed) previous generation and the
partially opened new listeners are orphaned. Only full success publishes
the new set. Go map iteration order over `ReverseMap` is unspecified; the
association-list order stands in for it (no claim depends on the order). -/
def reload (running : List Listener) (env : ReloadEnv) : ReloadOutcome :=
  match configNewModel env.decodeResult with
  | .error e =>
    { running := running, cfg := none, orphaned := [], trace := [], err := some e }
  | .ok cfg =>
    let closeEvs := running.map (fun l => ReloadEvent.closePrev l.port)
    let oldClosed := closeAll running
    let plan := (httpPorts env).map (fun p => (p, LMode.httpProxy))
      ++ cfg.reverseMap.map (fun pd => (pd.1, LMode.socksReverse pd.2))
    match openLoop env.bindFails cfg.proxy plan with
    | (evs, ls, some e) =>
      { running := oldClosed, cfg := some cfg, orphaned := ls,
        trace := closeEvs ++ evs, err := some e }
    | (evs, ls, none) =>
      { running := ls, cfg := some cfg, orphaned := [],
        trace := closeEvs ++ evs, err := none }

/-! ## Concrete instances used by counterexamples and witnesses -/

/-- The sample upstream of the repository documentation. -/
def examplePx : Proxy :=
  { name := "", host := "127.0.0.1", httpPort := 1080, socksPort := 1081,
    username := "your-user-name", password := "hack-me" }

/-- The same proxy as `configProcess` publishes it (name stamped in). -/
def examplePxNamed : Proxy := { examplePx with name := "example" }

/-- A raw config with no reverse mappings and a resolvable proxy key. -/
def rawPlain : RawConfig :=
  { useProxy := "example", reverse := [], directHosts := [],
    proxies := [("example", examplePx)] }

/-- A raw config with the documented single reverse mapping. -/
def rawOneReverse : RawConfig :=
  { rawPlain with reverse := ["41000->example.com:22"] }

/-- A raw config containing the separator-free entry of the claim. -/
def rawBadFormat : RawConfig :=
  { rawPlain with reverse := ["badformat"] }

/-- A raw config containing the non-numeric-port entry of the claim. -/
def rawBadPort : RawConfig :=
  { rawPlain with reverse := ["abc->example.com:22"] }

/-- A raw config whose reverse list repeats listen port 41000. -/
def rawDupPorts : RawConfig :=
  { rawPlain with
    reverse := ["41000->a.example.com:1", "41000->b.example.com:2"] }

/-- The config `configProcess rawPlain` produces. -/
def cfgPlain : Config :=
  { proxy := examplePxNamed, reverseMap := [], directHosts := [] }

/-- One running HTTP listener of the previous generation on port 40000. -/
def genPrev : List Listener :=
  [{ port := 40000, mode := .httpProxy, upstream := examplePxNamed,
     isOpen := true }]

/-- One running HTTP listener of the previous generation on port 40001. -/
def genPrevB : List Listener :=
  [{ port := 40001, mode := .httpProxy, upstream := examplePxNamed,
     isOpen := true }]

/-- Reload inputs: valid config, one HTTP port, every bind succeeds. -/
def envAllOk : ReloadEnv :=
  { decodeResult := .ok rawPlain, bindFails := fun _ => false,
    basePort := 40000, numPorts := 1 }

/-- Reload inputs: valid config but binding port 40000 fails. -/
def envBindFail : ReloadEnv :=
  { decodeResult := .ok rawPlain, bindFails := fun p => p == 40000,
    basePort := 40000, numPorts := 1 }

/-- Reload inputs whose TOML decode fails (missing file). -/
def envDecodeErr : ReloadEnv :=
  { decodeResult := .error (.msg "open config.toml: no such file or directory"),
    bindFails := fun _ => false, basePort := 40000, numPorts := 1 }

/-- The intro bytes of HTTP CONNECT: `HTTP/1.0 200 OK` and the blank
line, byte by byte. -/
def http200Intro : List Nat :=
  [72, 84, 84, 80, 47, 49, 46, 48, 32, 50, 48, 48, 32, 79, 75, 13, 10, 13, 10]

/-- Tunnel world where the dial through the upstream fails. -/
def worldDialFail : TunnelWorld :=
  { socks5Err := none, dialErr := some (.msg "connection refused"),
    introWriteErr := none, upstreamChunks := [],
    copyUpstreamToLocalErr := none, copyLocalToUpstreamErr := none }

/-- Tunnel world where the dial succeeds and two chunks flow back. -/
def worldRelayOk : TunnelWorld :=
  { socks5Err := none, dialErr := none, introWriteErr := none,
    upstreamChunks := [[1, 2], [3]],
    copyUpstreamToLocalErr := none, copyLocalToUpstreamErr := none }

/-- Tunnel world where the dial succeeds but the intro write fails. -/
def worldIntroFail : TunnelWorld :=
  { socks5Err := none, dialErr := none,
    introWriteErr := some (.msg "broken pipe"), upstreamChunks := [],
    copyUpstreamToLocalErr := none, copyLocalToUpstreamErr := none }

/-- Tunnel world where both copy directions fail. -/
def worldBothCopyFail : TunnelWorld :=
  { worldRelayOk with
    copyUpstreamToLocalErr := some (.msg "read reset"),
    copyLocalToUpstreamErr := some (.msg "write reset") }

/-- Tunnel world where only the upstream-to-local copy fails. -/
def worldUpCopyFail : TunnelWorld :=
  { worldRelayOk with copyUpstreamToLocalErr := some (.msg "read reset") }

/-- Tunnel world where only the local-to-upstream copy fails. -/
def worldDownCopyFail : TunnelWorld :=
  { worldRelayOk with copyLocalToUpstreamErr := some (.msg "write reset") }

/-- A SOCKS listener that is serving with one in-flight connection. -/
def socksServing : SOCKSState :=
  { closed := false, listenerOpen := true, inflight := [7] }

/-- Ok-flag of an `Except` result. -/
def exceptIsOk {α : Type} : Except GoErr α → Bool
  | .ok _ => true
  | .error _ => false

/-! ## Theorems -/

/-- Claim C4 (confirmed): when the SOCKS5 dialer was built but the dial of
the destination fails, `connectSOCKS` returns `connected = false` together
with the dial error, and the call has written nothing to the local
connection. -/
theorem dial_failure_no_local_writes (w : TunnelWorld) (intro : Option (List Nat))
    (e : GoErr) (h1 : w.socks5Err = none) (h2 : w.dialErr = some e) :
    connectSOCKS w intro =
      { connected := false, err := some e, localWrites := [] } := by
  simp [connectSOCKS, h1, h2]

/-- Witness for C4 at a concrete failing dial. -/
theorem dial_failure_no_local_writes_witness :
    connectSOCKS worldDialFail none =
      { connected := false, err := some (GoErr.msg "connection refused"),
        localWrites := [] } :=
  dial_failure_no_local_writes worldDialFail none (GoErr.msg "connection refused")
    rfl rfl

/-- Claim C5 (confirmed): when the dial succeeds and the intro byte
sequence is non-empty, the intro bytes are the first write on the local
connection — exactly one intro write happens, and every other local write
of the call (the relayed upstream bytes) comes after it. -/
theorem intro_write_once_before_relay (w : TunnelWorld) (bs : List Nat)
    (h1 : w.socks5Err = none) (h2 : w.dialErr = none) (_hbs : bs ≠ []) :
    ∃ tail, (connectSOCKS w (some bs)).localWrites =
        LocalWrite.introWrite bs :: tail ∧
      ∀ ev ∈ tail, LocalWrite.isIntro ev = false := by
  cases h3 : w.introWriteErr with
  | some e =>
    refine ⟨[], ?_, by simp⟩
    simp [connectSOCKS, h1, h2, h3]
  | none =>
    refine ⟨w.upstreamChunks.map LocalWrite.relayed, ?_, ?_⟩
    · simp [connectSOCKS, h1, h2, h3]
    · intro ev hev
      simp only [List.mem_map] at hev
      obtain ⟨c, _, rfl⟩ := hev
      rfl

/-- Witness for C5 at a concrete successful CONNECT world. -/
theorem intro_write_once_before_relay_witness :
    ∃ tail, (connectSOCKS worldRelayOk (some http200Intro)).localWrites =
        LocalWrite.introWrite http200Intro :: tail ∧
      ∀ ev ∈ tail, LocalWrite.isIntro ev = false :=
  intro_write_once_before_relay worldRelayOk http200Intro rfl rfl (by decide)

/-- Counterexample to claim C6: a call in which the dial through the
upstream succeeds but the subsequent intro write fails returns
`connected = false`, because the source sets `connected = true` only after
the intro write — the claim says `connected` should be `true` regardless
of the intro-write failure. -/
theorem intro_write_failure_connected_false_cex :
    worldIntroFail.socks5Err = none ∧ worldIntroFail.dialErr = none ∧
      (connectSOCKS worldIntroFail (some http200Intro)).connected = false := by
  decide

/-- Claim C6 (corrected): `connected = true` exactly when the SOCKS5
dialer was built, the dial succeeded, and — when intro bytes were passed —
the intro write succeeded as well; an intro-write failure yields
`connected = false`. -/
theorem connected_iff_dial_and_intro_ok (w : TunnelWorld)
    (intro : Option (List Nat)) :
    (connectSOCKS w intro).connected = true ↔
      (w.socks5Err = none ∧ w.dialErr = none ∧
        (intro = none ∨ w.introWriteErr = none)) := by
  cases h1 : w.socks5Err with
  | some e => simp [connectSOCKS, h1]
  | none =>
    cases h2 : w.dialErr with
    | some e => simp [connectSOCKS, h1, h2]
    | none =>
      cases intro with
      | none => cases h3 : w.introWriteErr <;> simp [connectSOCKS, h1, h2, h3]
      | some bs => cases h3 : w.introWriteErr <;> simp [connectSOCKS, h1, h2, h3]

/-- Claim C7 (confirmed): once the call reaches the bidirectional copy
phase, the returned error is the combination of both direction errors when
both directions fail, exactly the failing direction's error when one
fails, and `none` when both directions reach clean EOF. -/
theorem copy_error_aggregation (w : TunnelWorld) (intro : Option (List Nat))
    (h1 : w.socks5Err = none) (h2 : w.dialErr = none)
    (h3 : intro = none ∨ w.introWriteErr = none) :
    (∀ e1 e2, w.copyUpstreamToLocalErr = some e1 →
        w.copyLocalToUpstreamErr = some e2 →
        (connectSOCKS w intro).err = some (GoErr.two e1 e2)) ∧
    (∀ e1, w.copyUpstreamToLocalErr = some e1 →
        w.copyLocalToUpstreamErr = none →
        (connectSOCKS w intro).err = some e1) ∧
    (∀ e2, w.copyUpstreamToLocalErr = none →
        w.copyLocalToUpstreamErr = some e2 →
        (connectSOCKS w intro).err = some e2) ∧
    (w.copyUpstreamToLocalErr = none → w.copyLocalToUpstreamErr = none →
        (connectSOCKS w intro).err = none) := by
  have hred : (connectSOCKS w intro).err =
      match w.copyUpstreamToLocalErr, w.copyLocalToUpstreamErr with
      | some e1, some e2 => some (.two e1 e2)
      | some e1, none => some e1
      | none, some e2 => some e2
      | none, none => none := by
    rcases h3 with h3 | h3
    · subst h3
      cases hw : w.introWriteErr <;> simp [connectSOCKS, h1, h2, hw]
    · cases intro <;> simp [connectSOCKS, h1, h2, h3]
  refine ⟨fun e1 e2 ha hb => ?_, fun e1 ha hb => ?_,
    fun e2 ha hb => ?_, fun ha hb => ?_⟩ <;> rw [hred, ha, hb]

/-- Witness for C7 evaluating all four aggregation cases concretely. -/
theorem copy_error_aggregation_witness :
    (connectSOCKS worldBothCopyFail none).err =
      some (GoErr.two (GoErr.msg "read reset") (GoErr.msg "write reset")) ∧
    (connectSOCKS worldUpCopyFail none).err = some (GoErr.msg "read reset") ∧
    (connectSOCKS worldDownCopyFail none).err = some (GoErr.msg "write reset") ∧
    (connectSOCKS worldRelayOk none).err = none :=
  ⟨(copy_error_aggregation worldBothCopyFail none rfl rfl (Or.inl rfl)).1 _ _
      rfl rfl,
   (copy_error_aggregation worldUpCopyFail none rfl rfl (Or.inl rfl)).2.1 _
      rfl rfl,
   (copy_error_aggregation worldDownCopyFail none rfl rfl (Or.inl rfl)).2.2.1 _
      rfl rfl,
   (copy_error_aggregation worldRelayOk none rfl rfl (Or.inl rfl)).2.2.2
      rfl rfl⟩

/-- If the tracking loop is still running when its message stream ends,
delivering `kill` (grace-period expiry) makes it force-close exactly the
connections still tracked at that point. -/
theorem mgrRun_append_kill (evs : List MgrEvent) : ∀ conns stopped conns2 s2,
    mgrRun conns stopped evs = MgrOutcome.running conns2 s2 →
    mgrRun conns stopped (evs ++ [MgrEvent.kill]) =
      MgrOutcome.finishedKilled conns2 := by
  induction evs with
  | nil =>
    intro conns stopped conns2 s2 h
    simp only [mgrRun] at h
    cases h
    rfl
  | cons e evs ih =>
    intro conns stopped conns2 s2 h
    cases e with
    | add c =>
      simp only [List.cons_append, mgrRun] at h ⊢
      exact ih _ _ _ _ h
    | remove c =>
      simp only [List.cons_append, mgrRun] at h ⊢
      split at h
      · exact absurd h (by simp)
      next hcond =>
        rw [if_neg hcond]
        exact ih _ _ _ _ h
    | stop =>
      simp only [List.cons_append, mgrRun] at h ⊢
      split at h
      · exact absurd h (by simp)
      next hcond =>
        rw [if_neg hcond]
        exact ih _ _ _ _ h
    | kill =>
      simp only [List.cons_append, mgrRun] at h
      exact absurd h (by simp)

/-- The tracking loop answers `done` (graceful drain) only with an empty
tracked set. -/
theorem mgrRun_graceful_empty (evs : List MgrEvent) : ∀ conns stopped conns2,
    mgrRun conns stopped evs = MgrOutcome.finishedGraceful conns2 →
    conns2 = [] := by
  induction evs with
  | nil =>
    intro conns stopped conns2 h
    exact absurd h (by simp [mgrRun])
  | cons e evs ih =>
    intro conns stopped conns2 h
    cases e with
    | add c =>
      simp only [mgrRun] at h
      exact ih _ _ _ h
    | remove c =>
      simp only [mgrRun] at h
      split at h
      next hcond =>
        cases h
        exact List.isEmpty_iff.mp (Bool.and_elim_right hcond)
      next hcond => exact ih _ _ _ h
    | stop =>
      simp only [mgrRun] at h
      split at h
      next hcond =>
        cases h
        exact List.isEmpty_iff.mp hcond
      next hcond => exact ih _ _ _ h
    | kill =>
      simp only [mgrRun] at h
      exact absurd h (by simp)

/-- Claim C3 (corrected): the drain contract the code actually implements.
For the HTTP frontend's controller `run`: whatever is still tracked when
the 1-second grace period expires is exactly the set force-closed by
`kill`, and a graceful completion (`done`) happens only once the tracked
set is empty — so every tracked connection is observed closed (removed or
force-closed) when `Close` returns. The SOCKS reverse frontend's `Close`,
by contrast, only closes the listening socket and returns at once: its
in-flight connections are left untouched. -/
theorem drain_contract :
    (∀ conns stopped evs conns2 s2,
        mgrRun conns stopped evs = MgrOutcome.running conns2 s2 →
        mgrRun conns stopped (evs ++ [MgrEvent.kill]) =
          MgrOutcome.finishedKilled conns2) ∧
    (∀ conns stopped evs conns2,
        mgrRun conns stopped evs = MgrOutcome.finishedGraceful conns2 →
        conns2 = []) ∧
    (∀ s : SOCKSState, (socksClose s).2.inflight = s.inflight ∧
        (socksClose s).2.listenerOpen = false) :=
  ⟨fun conns stopped evs => mgrRun_append_kill evs conns stopped,
   fun conns stopped evs => mgrRun_graceful_empty evs conns stopped,
   fun _ => ⟨rfl, rfl⟩⟩

/-- Witness for C3: a straggler force-closed at grace expiry, a graceful
drain that finishes on the emptying remove, and the SOCKS close leaving
its in-flight connection untouched. -/
theorem drain_contract_witness :
    mgrRun [5] false [MgrEvent.kill] = MgrOutcome.finishedKilled [5] ∧
    ([] : List Nat) = [] ∧
    (socksClose socksServing).2.inflight = [7] :=
  ⟨drain_contract.1 [5] false [] [5] false rfl,
   drain_contract.2.1 [3] false [MgrEvent.stop, MgrEvent.remove 3] [] rfl,
   (drain_contract.2.2 socksServing).1⟩

/-- Counterexample to claim C3: `SOCKS.Close` returns (with no error)
while its in-flight connection is still open — it performs no draining,
no grace-period wait and no forced close, so a tracked connection is not
observed closed when `Close` returns. -/
theorem socks_close_no_drain_cex :
    (socksClose socksServing).1 = none ∧
    (socksClose socksServing).2.inflight = [7] ∧ ([7] : List Nat) ≠ [] := by
  decide

/-- Counterexample to claim C9: on an HTTP listener the first `Close`
completes (returning no error), but a second `Close` finds no receiver
for the `sig` handshake — the drain coordinator has exited — and blocks
forever (`none`), so the second call does fail to return. -/
theorem http_close_second_call_blocks_cex :
    httpClose { listenerOpen := true, runActive := true } =
      some (none, { listenerOpen := false, runActive := false }) ∧
    httpClose { listenerOpen := false, runActive := false } = none := by
  decide

/-- Claim C9 (corrected): for a SOCKS reverse listener a second `Close`
terminates and observes exactly the closed-socket error; for an HTTP
listener `Close` completes exactly while the drain coordinator is still
active, so the second call (coordinator gone) never returns. -/
theorem close_twice_contract :
    (∀ s : SOCKSState, s.listenerOpen = true →
        (socksClose s).1 = none ∧
        (socksClose ((socksClose s).2)).1 = some closedSocketErr) ∧
    (∀ s : HTTPCloseState, httpClose s = none ↔ s.runActive = false) := by
  constructor
  · intro s h
    exact ⟨by simp [socksClose, h], by simp [socksClose]⟩
  · intro s
    obtain ⟨lo, ra⟩ := s
    cases ra <;> simp [httpClose]

/-- Witness for C9 at a concrete open SOCKS listener. -/
theorem close_twice_contract_witness :
    (socksClose { closed := false, listenerOpen := true, inflight := [] }).1 =
      none ∧
    (socksClose ((socksClose
        { closed := false, listenerOpen := true, inflight := [] }).2)).1 =
      some closedSocketErr :=
  close_twice_contract.1 _ rfl

/-- The two listener-construction loops emit only open events, never a
close event. -/
theorem openLoop_no_close (bindFails : Int → Bool) (px : Proxy)
    (plan : List (Int × LMode)) :
    ∀ e ∈ (openLoop bindFails px plan).1, ReloadEvent.isClose e = false := by
  induction plan with
  | nil => intro e he; simp [openLoop] at he
  | cons pm rest ih =>
    intro e he
    obtain ⟨p, m⟩ := pm
    cases hb : bindFails p with
    | true => simp [openLoop, hb] at he
    | false =>
      simp only [openLoop, hb, Bool.false_eq_true, if_false,
        List.mem_cons] at he
      rcases he with rfl | he
      · cases m <;> rfl
      · exact ih e he

/-- Counterexample to claim C1: a fully successful reload whose trace
closes the previous-generation listener strictly before the new listener
is confirmed open — the exact opposite of the claimed order. -/
theorem reload_close_before_open_cex :
    (reload genPrev envAllOk).err = none ∧
    closeBeforeOpen (reload genPrev envAllOk).trace = true := by
  decide

/-- Claim C1 (corrected): in every execution of `reload`, the trace splits
into the closes of the previous generation followed by the opens of the
new one — every previous-generation close happens strictly before any new
listener is opened, never after. -/
theorem reload_close_strictly_precedes_open (running : List Listener)
    (env : ReloadEnv) :
    ∃ cs os, (reload running env).trace = cs ++ os ∧
      (∀ e ∈ cs, ReloadEvent.isClose e = true) ∧
      (∀ e ∈ os, ReloadEvent.isClose e = false) := by
  cases hc : configNewModel env.decodeResult with
  | error e =>
    exact ⟨[], [], by simp [reload, hc], by simp, by simp⟩
  | ok cfg =>
    cases ho : openLoop env.bindFails cfg.proxy
        ((httpPorts env).map (fun p => (p, LMode.httpProxy))
          ++ cfg.reverseMap.map (fun pd => (pd.1, LMode.socksReverse pd.2)))
      with
    | mk evs rest =>
      obtain ⟨ls, oe⟩ := rest
      refine ⟨running.map (fun l => ReloadEvent.closePrev l.port), evs,
        ?_, ?_, ?_⟩
      · cases oe <;> simp [reload, hc, ho]
      · intro e he
        simp only [List.mem_map] at he
        obtain ⟨l, _, rfl⟩ := he
        rfl
      · intro e he
        refine openLoop_no_close env.bindFails cfg.proxy
          ((httpPorts env).map (fun p => (p, LMode.httpProxy))
            ++ cfg.reverseMap.map (fun pd => (pd.1, LMode.socksReverse pd.2)))
          e ?_
        rw [ho]
        exact he

/-- Witness for C1's amended statement on a concrete reload. -/
theorem reload_close_strictly_precedes_open_witness :
    ∃ cs os, (reload genPrev envAllOk).trace = cs ++ os ∧
      (∀ e ∈ cs, ReloadEvent.isClose e = true) ∧
      (∀ e ∈ os, ReloadEvent.isClose e = false) :=
  reload_close_strictly_precedes_open genPrev envAllOk

/-- Counterexample to claim C2: a reload attempt failing on a bind error
does not leave the previously running listener set as it was — the old
listeners have already been closed when the bind failure happens. -/
theorem reload_bind_failure_not_isolated_cex :
    (reload genPrevB envBindFail).err.isSome = true ∧
    (reload genPrevB envBindFail).running ≠ genPrevB := by
  decide

/-- Claim C2 (corrected): errors out of config loading (decode failure,
invalid proxy key, malformed reverse mapping) leave the running listener
set exactly as it was, with the error returned; but a reload attempt that
fails after config loading (a bind failure) leaves the previous
generation already closed, not as it was. -/
theorem reload_error_isolation :
    (∀ (running : List Listener) (env : ReloadEnv) (e : GoErr),
        configNewModel env.decodeResult = Except.error e →
        (reload running env).running = running ∧
          (reload running env).err = some e) ∧
    (∀ (running : List Listener) (env : ReloadEnv) (cfg : Config),
        configNewModel env.decodeResult = Except.ok cfg →
        (reload running env).err.isSome = true →
        (reload running env).running = closeAll running) := by
  constructor
  · intro running env e h
    exact ⟨by simp [reload, h], by simp [reload, h]⟩
  · intro running env cfg h hsome
    cases ho : openLoop env.bindFails cfg.proxy
        ((httpPorts env).map (fun p => (p, LMode.httpProxy))
          ++ cfg.reverseMap.map (fun pd => (pd.1, LMode.socksReverse pd.2)))
      with
    | mk evs rest =>
      obtain ⟨ls, oe⟩ := rest
      cases oe with
      | none => simp [reload, h, ho] at hsome
      | some e2 => simp [reload, h, ho, closeAll]

/-- Witness for C2: a decode failure leaves the set untouched, a bind
failure leaves the previous generation closed. -/
theorem reload_error_isolation_witness :
    ((reload genPrev envDecodeErr).running = genPrev ∧
      (reload genPrev envDecodeErr).err =
        some (GoErr.msg "open config.toml: no such file or directory")) ∧
    (reload genPrevB envBindFail).running = closeAll genPrevB :=
  ⟨reload_error_isolation.1 genPrev envDecodeErr _ rfl,
   reload_error_isolation.2 genPrevB envBindFail cfgPlain rfl rfl⟩

/-- An entry the pure view accepts makes the loader loop perform exactly
the corresponding map assignment. -/
theorem parseReverseLoop_cons_some (acc : List (Int × String)) (s : String)
    (rest : List String) (p : Int) (v : String)
    (h : parseEntry s = some (p, v)) :
    parseReverseLoop acc (s :: rest) =
      parseReverseLoop (mapInsert acc p v) rest := by
  cases hsp : goSplitN2Arrow s with
  | nil =>
    simp [parseEntry, hsp] at h
  | cons k tl =>
    cases tl with
    | nil => simp [parseEntry, hsp] at h
    | cons w tl2 =>
      cases tl2 with
      | nil =>
        cases ha : goAtoi k with
        | ok q =>
          simp only [parseEntry, hsp, ha, Option.some.injEq, Prod.mk.injEq]
            at h
          obtain ⟨rfl, rfl⟩ := h
          simp only [parseReverseLoop, hsp, ha]
        | error e => simp [parseEntry, hsp, ha] at h
      | cons x tl3 => simp [parseEntry, hsp] at h

/-- An entry the pure view rejects makes the loader loop fail. -/
theorem parseReverseLoop_cons_none (acc : List (Int × String)) (s : String)
    (rest : List String) (h : parseEntry s = none) :
    exceptIsOk (parseReverseLoop acc (s :: rest)) = false := by
  cases hsp : goSplitN2Arrow s with
  | nil => simp only [parseReverseLoop, hsp, exceptIsOk]
  | cons k tl =>
    cases tl with
    | nil => simp only [parseReverseLoop, hsp, exceptIsOk]
    | cons w tl2 =>
      cases tl2 with
      | nil =>
        cases ha : goAtoi k with
        | ok q => simp [parseEntry, hsp, ha] at h
        | error e => simp only [parseReverseLoop, hsp, ha, exceptIsOk]
      | cons x tl3 => simp only [parseReverseLoop, hsp, exceptIsOk]

/-- A malformed entry anywhere in the reverse list makes the loader loop
fail, whatever came before it. -/
theorem parseReverseLoop_malformed (l : List String) : ∀ acc, ∀ s ∈ l,
    entryMalformed s = true → exceptIsOk (parseReverseLoop acc l) = false := by
  induction l with
  | nil => intro acc s hs; simp at hs
  | cons m rest ih =>
    intro acc s hs hmal
    cases hp : parseEntry m with
    | none => exact parseReverseLoop_cons_none acc m rest hp
    | some pv =>
      obtain ⟨p, v⟩ := pv
      rw [parseReverseLoop_cons_some acc m rest p v hp]
      rcases List.mem_cons.mp hs with rfl | hs2
      · rw [entryMalformed, hp] at hmal
        simp at hmal
      · exact ih (mapInsert acc p v) s hs2 hmal

/-- When every entry is well-formed, the loader loop succeeds and builds
exactly the fold of the parsed entries through Go map assignment. -/
theorem parseReverseLoop_wf (l : List String) : ∀ acc,
    (∀ s ∈ l, entryMalformed s = false) →
    parseReverseLoop acc l = .ok (buildMap acc (l.filterMap parseEntry)) := by
  induction l with
  | nil => intro acc _; rfl
  | cons s rest ih =>
    intro acc h
    have hs : entryMalformed s = false := h s (by simp)
    cases hp : parseEntry s with
    | none => rw [entryMalformed, hp] at hs; simp at hs
    | some pv =>
      obtain ⟨p, v⟩ := pv
      rw [parseReverseLoop_cons_some acc s rest p v hp]
      simp only [List.filterMap_cons, hp]
      exact ih (mapInsert acc p v) (fun t ht => h t (List.mem_cons_of_mem s ht))

/-- Claim C8 (confirmed): the loader maps `41000->example.com:22` to the
entry `(41000, example.com:22)`, and any entry without the `->` separator
or with a non-integer port prefix (such as `badformat` and
`abc->example.com:22`) makes config loading fail with a load error. -/
theorem reverse_mapping_parsing :
    (configOk rawOneReverse).map Config.reverseMap =
      some [(41000, "example.com:22")] ∧
    (∀ raw : RawConfig, ∀ s ∈ raw.reverse, entryMalformed s = true →
        configOk raw = none) ∧
    entryMalformed "badformat" = true ∧
    entryMalformed "abc->example.com:22" = true := by
  refine ⟨by decide, ?_, by decide, by decide⟩
  intro raw s hs hmal
  have hfail := parseReverseLoop_malformed raw.reverse [] s hs hmal
  unfold configOk configProcess
  cases hpl : parseReverseLoop [] raw.reverse with
  | error e => rfl
  | ok rm => rw [hpl] at hfail; simp [exceptIsOk] at hfail

/-- Witness for C8 on the two malformed entries of the claim. -/
theorem reverse_mapping_parsing_witness :
    configOk rawBadFormat = none ∧ configOk rawBadPort = none :=
  ⟨reverse_mapping_parsing.2.1 rawBadFormat "badformat" (by decide) (by decide),
   reverse_mapping_parsing.2.1 rawBadPort "abc->example.com:22" (by decide)
     (by decide)⟩

/-- Reading a Go map after an assignment: the assigned key reads the new
value, every other key is unaffected. -/
theorem mapLookup_mapInsert (m : List (Int × String)) (k : Int) (v : String)
    (p : Int) :
    mapLookup (mapInsert m k v) p = if k = p then some v else mapLookup m p := by
  induction m with
  | nil =>
    simp only [mapInsert, mapLookup]
  | cons kv rest ih =>
    obtain ⟨k0, v0⟩ := kv
    by_cases h0 : k0 = k
    · subst h0
      simp only [mapInsert, if_pos rfl, mapLookup]
      by_cases hp : k0 = p
      · simp [hp]
      · simp [hp]
    · simp only [mapInsert, if_neg h0, mapLookup]
      by_cases hp : k0 = p
      · subst hp
        have hk : ¬ k = k0 := fun he => h0 he.symm
        simp [hk]
      · simp [hp, ih]

/-- Looking up the fold of map assignments: the last assignment with the
key wins; a key never assigned falls through to the start map. -/
theorem mapLookup_buildMap (entries : List (Int × String)) : ∀ acc p,
    mapLookup (buildMap acc entries) p =
      match specLastDest entries p with
      | some d => some d
      | none => mapLookup acc p := by
  induction entries with
  | nil => intro acc p; rfl
  | cons kv es ih =>
    obtain ⟨k, v⟩ := kv
    intro acc p
    have hb : buildMap acc ((k, v) :: es) = buildMap (mapInsert acc k v) es :=
      rfl
    rw [hb, ih]
    cases hld : specLastDest es p with
    | some d => simp [specLastDest, hld]
    | none =>
      simp only [specLastDest, hld, mapLookup_mapInsert]
      by_cases hk : k = p
      · simp [hk]
      · simp [hk]

/-- Keys after a Go map assignment: unchanged when the key was present,
the key appended otherwise. -/
theorem mapInsert_keys (m : List (Int × String)) (k : Int) (v : String) :
    (mapInsert m k v).map Prod.fst =
      if k ∈ m.map Prod.fst then m.map Prod.fst
      else m.map Prod.fst ++ [k] := by
  induction m with
  | nil => simp [mapInsert]
  | cons kv rest ih =>
    obtain ⟨k0, v0⟩ := kv
    by_cases h0 : k0 = k
    · subst h0
      simp [mapInsert]
    · have hk0 : ¬ k = k0 := fun he => h0 he.symm
      simp only [mapInsert, if_neg h0, List.map_cons, List.mem_cons, hk0,
        false_or]
      rw [ih]
      by_cases hk : k ∈ rest.map Prod.fst
      · simp [hk]
      · simp [hk]

/-- Go map assignment preserves key uniqueness. -/
theorem mapInsert_keys_nodup (m : List (Int × String)) (k : Int) (v : String)
    (h : (m.map Prod.fst).Nodup) : ((mapInsert m k v).map Prod.fst).Nodup := by
  rw [mapInsert_keys]
  by_cases hk : k ∈ m.map Prod.fst
  · simpa [hk] using h
  · simp only [hk, if_false]
    simp [List.nodup_append, h, hk]

/-- Folding map assignments preserves key uniqueness. -/
theorem buildMap_keys_nodup (entries : List (Int × String)) : ∀ acc,
    ((acc.map Prod.fst).Nodup) →
    ((buildMap acc entries).map Prod.fst).Nodup := by
  induction entries with
  | nil => intro acc h; exact h
  | cons kv es ih =>
    intro acc h
    exact ih (mapInsert acc kv.1 kv.2) (mapInsert_keys_nodup acc kv.1 kv.2 h)

/-- A successful lookup means the key is among the map's keys. -/
theorem mem_keys_of_mapLookup (m : List (Int × String)) (p : Int) (d : String) :
    mapLookup m p = some d → p ∈ m.map Prod.fst := by
  induction m with
  | nil => intro h; simp [mapLookup] at h
  | cons kv rest ih =>
    obtain ⟨k0, v0⟩ := kv
    intro h
    by_cases h0 : k0 = p
    · simp [h0]
    · simp only [mapLookup, if_neg h0] at h
      exact List.mem_cons_of_mem _ (ih h)

/-- A key that is absent from the map occurs zero times. -/
theorem portCount_zero (m : List (Int × String)) (p : Int)
    (h : p ∉ m.map Prod.fst) : portCount m p = 0 := by
  induction m with
  | nil => rfl
  | cons kv rest ih =>
    obtain ⟨k0, v0⟩ := kv
    simp only [List.map_cons, List.mem_cons] at h
    push_neg at h
    obtain ⟨h1, h2⟩ := h
    have hne : (k0 == p) = false := by
      simp
      exact fun he => h1 he.symm
    simp only [portCount, List.filter_cons, hne]
    exact ih h2

/-- With unique keys, a present key occurs exactly once in the map. -/
theorem portCount_eq_one (m : List (Int × String)) (p : Int) :
    (m.map Prod.fst).Nodup → p ∈ m.map Prod.fst → portCount m p = 1 := by
  induction m with
  | nil => intro _ hmem; simp at hmem
  | cons kv rest ih =>
    obtain ⟨k0, v0⟩ := kv
    intro hnd hmem
    simp only [List.map_cons, List.nodup_cons] at hnd
    obtain ⟨hk0, hnd2⟩ := hnd
    by_cases h0 : k0 = p
    · subst h0
      have hz : portCount rest k0 = 0 := portCount_zero rest k0 hk0
      simp only [portCount, List.filter_cons, beq_self_eq_true, if_pos,
        List.length_cons]
      simpa [portCount] using hz
    · have hne : (k0 == p) = false := by
        simp
        exact h0
      simp only [portCount, List.filter_cons, hne]
      simp only [List.map_cons, List.mem_cons] at hmem
      rcases hmem with rfl | hmem
      · exact absurd rfl h0
      · exact ih hnd2 hmem

/-- When no entry carries port `p`, the filtered entry list is empty. -/
theorem specLastDest_none (entries : List (Int × String)) (p : Int) :
    specLastDest entries p = none →
    entries.filter (fun pv => pv.1 == p) = [] := by
  induction entries with
  | nil => intro _; rfl
  | cons kv es ih =>
    obtain ⟨k, v⟩ := kv
    intro h
    simp only [specLastDest] at h
    cases hld : specLastDest es p with
    | some d => rw [hld] at h; exact absurd h (by simp)
    | none =>
      rw [hld] at h
      by_cases hk : k = p
      · rw [if_pos hk] at h; exact absurd h (by simp)
      · have hne : (k == p) = false := by
          simp
          exact hk
        simp only [List.filter_cons, hne]
        exact ih hld

/-- Claim C10 (confirmed): a configuration whose reverse list repeats a
listen port (with every entry well-formed and the proxy key resolvable)
loads without error; the resulting reverse map holds exactly one entry
for that port and its destination is the one of the entry appearing last
in the list — earlier duplicates are silently overwritten. -/
theorem duplicate_ports_last_wins (raw : RawConfig) (p : Int)
    (hwf : ∀ s ∈ raw.reverse, entryMalformed s = false)
    (hpx : (lookupProxy raw.proxies raw.useProxy).isSome = true)
    (hdup : 2 ≤ portOccurrences raw.reverse p) :
    ∃ cfg d, configProcess raw = .ok cfg ∧
      specLastDest (raw.reverse.filterMap parseEntry) p = some d ∧
      mapLookup cfg.reverseMap p = some d ∧
      portCount cfg.reverseMap p = 1 := by
  obtain ⟨px, hpx2⟩ := Option.isSome_iff_exists.mp hpx
  have hloop := parseReverseLoop_wf raw.reverse [] hwf
  obtain ⟨d, hd⟩ : ∃ d, specLastDest (raw.reverse.filterMap parseEntry) p =
      some d := by
    cases hld : specLastDest (raw.reverse.filterMap parseEntry) p with
    | some d => exact ⟨d, rfl⟩
    | none =>
      have hempty := specLastDest_none (raw.reverse.filterMap parseEntry) p hld
      rw [portOccurrences, hempty] at hdup
      simp at hdup
  have hlook : mapLookup (buildMap [] (raw.reverse.filterMap parseEntry)) p =
      some d := by
    rw [mapLookup_buildMap, hd]
  have hcfg : configProcess raw = Except.ok
      { proxy := { px with name := raw.useProxy },
        reverseMap := buildMap [] (raw.reverse.filterMap parseEntry),
        directHosts := raw.directHosts.foldl setInsertStr [] } := by
    unfold configProcess
    rw [hloop, hpx2]
  exact ⟨_, d, hcfg, hd, hlook,
    portCount_eq_one _ p
      (buildMap_keys_nodup (raw.reverse.filterMap parseEntry) [] (by simp))
      (mem_keys_of_mapLookup _ p d hlook)⟩

/-- Witness for C10 on a reverse list repeating port 41000. -/
theorem duplicate_ports_last_wins_witness :
    ∃ cfg d, configProcess rawDupPorts = .ok cfg ∧
      specLastDest (rawDupPorts.reverse.filterMap parseEntry) 41000 = some d ∧
      mapLookup cfg.reverseMap 41000 = some d ∧
      portCount cfg.reverseMap 41000 = 1 :=
  duplicate_ports_last_wins rawDupPorts 41000 (by decide) (by decide) (by decide)

end ProxyRelay
